import Mathlib

/-!
Shallow embedding of the transport layer of the pirates RPC library
(src/transport.rs): the wire codec configuration, the transport package
envelope, the Transport facade, and the two InternalTransport
implementations (TcpTransport and CannedTestingTransport).

Byte buffers (the crate's Bytes / OwnedBytes aliases) are modelled as
List Nat.  Stateful async operations are modelled by explicit state
passing: each operation takes the implementation state and returns its
result paired with the successor state.
-/

namespace Pirates

/-- Rust std::time::Duration, modelled by its total nanosecond count. -/
structure Duration where
  nanos : Nat
deriving DecidableEq, Repr

def Duration.from_secs (s : Nat) : Duration := ⟨s * 1000000000⟩

/-- Errors specific to transport (transport.rs, enum TransportError). -/
inductive TransportError where
  | SendError (s : String)
  | ReceiveError (s : String)
  | ConnectError (s : String)
  | ReceiveTimeout (d : Duration)
  | SerialiseError (s : String)
  | DeserialiseError (s : String)
deriving DecidableEq, Repr

/-- Modelled from the spec: the external RPC error taxonomy
(crate::error::RpcError, not under src/) wraps a transport error in a
single variant. -/
inductive RpcError where
  | TransportError (e : TransportError)
deriving DecidableEq, Repr

/-- Modelled from the spec: the universe of values the wire codec is used on
in this crate: strings, raw byte buffers, enumerated (unit-variant) tags
such as RPC names, and the two-byte-buffer package record.  Strings are
carried as their byte sequences. -/
inductive PValue where
  | vstr (s : List Nat)
  | vbytes (b : List Nat)
  | vtag (n : Nat)
  | vpackage (name_bytes query_bytes : List Nat)
deriving DecidableEq, Repr

/-- The shape (serde target type) a deserialization call expects. -/
inductive PTy where
  | tstr
  | tbytes
  | ttag
  | tpackage
deriving DecidableEq, Repr

/-- The shape of a value, used to decide whether a typed decode accepts it. -/
def tyOf : PValue → PTy
  | .vstr _ => .tstr
  | .vbytes _ => .tbytes
  | .vtag _ => .ttag
  | .vpackage _ _ => .tpackage

/-- Modelled from the spec: the serde_pickle codec (external crate) as a
deterministic, self-describing, length-prefixed encoding.  A leading tag
identifies the value category and variable-length payloads are preceded by
their length. -/
def pickleSer : PValue → List Nat
  | .vstr s => 0 :: s.length :: s
  | .vbytes b => 1 :: b.length :: b
  | .vtag n => [2, n]
  | .vpackage nb qb => 3 :: nb.length :: (nb ++ qb.length :: qb)

/-- Read a length-prefixed run of bytes from the front of a buffer. -/
def readLen : List Nat → Option (List Nat × List Nat)
  | [] => none
  | k :: rest => if k ≤ rest.length then some (rest.take k, rest.drop k) else none

/-- Consume one encoded value from the front of a buffer. -/
def parseValue : List Nat → Option (PValue × List Nat)
  | 0 :: rest => (readLen rest).map (fun p => (.vstr p.1, p.2))
  | 1 :: rest => (readLen rest).map (fun p => (.vbytes p.1, p.2))
  | 2 :: n :: rest => some (.vtag n, rest)
  | 3 :: rest =>
    (readLen rest).bind (fun p =>
      (readLen p.2).map (fun q => (.vpackage p.1 q.1, q.2)))
  | _ => none

/-- Full-buffer parse: the decode of a byte buffer succeeds only when the
whole buffer is one encoded value. -/
def pickleParse (b : List Nat) : Option PValue :=
  match parseValue b with
  | some (v, []) => some v
  | _ => none

/-- serde_pickle deserialization options, carried opaquely by the config. -/
structure DeOptions deriving DecidableEq, Repr

def DeOptions.new : DeOptions := ⟨⟩

/-- serde_pickle serialization options, carried opaquely by the config. -/
structure SerOptions deriving DecidableEq, Repr

def SerOptions.new : SerOptions := ⟨⟩

/-- TransportWireConfig (transport.rs): how to (de)serialise query/response
data.  Only the Pickle variant exists without optional cargo features. -/
inductive TransportWireConfig where
  | Pickle (de_opts : DeOptions) (ser_opts : SerOptions)
deriving DecidableEq, Repr

/-- TransportWireConfig::serialize: dispatch on the strategy and encode. -/
def TransportWireConfig.serialize (c : TransportWireConfig) (val : PValue) :
    Except TransportError (List Nat) :=
  match c with
  | .Pickle _ _ => .ok (pickleSer val)

/-- TransportWireConfig::deserialize at an expected target shape. -/
def TransportWireConfig.deserialize (c : TransportWireConfig) (t : PTy)
    (bytes : List Nat) : Except TransportError PValue :=
  match c with
  | .Pickle _ _ =>
    match pickleParse bytes with
    | none => .error (.DeserialiseError "invalid pickle")
    | some v => if tyOf v = t then .ok v else .error (.DeserialiseError "type mismatch")

/-- impl Default for TransportWireConfig. -/
def TransportWireConfig.default : TransportWireConfig :=
  .Pickle DeOptions.new SerOptions.new

/-- TransportPackage: the borrowed-form envelope sent over the wire. -/
structure TransportPackage where
  name_bytes : List Nat
  query_bytes : List Nat
deriving DecidableEq, Repr

/-- TransportPackageOwned: the owned-form envelope produced when receiving. -/
structure TransportPackageOwned where
  name_bytes : List Nat
  query_bytes : List Nat
deriving DecidableEq, Repr

/-- View a package as a codec value (the serde derive on the struct). -/
def TransportPackage.toValue (p : TransportPackage) : PValue :=
  .vpackage p.name_bytes p.query_bytes

/-- Typed decode at type TransportPackageOwned (receive_query's first decode). -/
def TransportWireConfig.deserializePackage (c : TransportWireConfig)
    (bytes : List Nat) : Except TransportError TransportPackageOwned :=
  match c.deserialize .tpackage bytes with
  | .ok (.vpackage nb qb) => .ok ⟨nb, qb⟩
  | .ok _ => .error (.DeserialiseError "type mismatch")
  | .error e => .error e

/-- TransportConfig: receive timeout plus wire codec selection. -/
structure TransportConfig where
  rcv_timeout : Duration
  wire_config : TransportWireConfig
deriving DecidableEq, Repr

/-- impl Default for TransportConfig. -/
def TransportConfig.default : TransportConfig :=
  ⟨Duration.from_secs 3, TransportWireConfig.default⟩

/-- The InternalTransport trait: a state-passing model of its three async
operations over an implementation state type. -/
structure InternalTransport (σ : Type) where
  send : σ → List Nat → Except TransportError Unit × σ
  send_and_wait_for_response : σ → List Nat → Duration → Except TransportError (List Nat) × σ
  receive : σ → Option Duration → Except TransportError (List Nat) × σ

/-- ReceivedQuery: decoded name plus the still-encoded query bytes. -/
structure ReceivedQuery where
  name : PValue
  query_bytes : List Nat
deriving DecidableEq, Repr

/-- Transport::send_query: encode the name, build the package from the name
bytes and the caller's query bytes, encode the package, and hand it to
send_and_wait_for_response with the configured receive timeout. -/
def Transport.send_query {σ : Type} (impl : InternalTransport σ)
    (cfg : TransportConfig) (st : σ) (query_bytes : List Nat)
    (rpc_name : PValue) : Except RpcError (List Nat) × σ :=
  match cfg.wire_config.serialize rpc_name with
  | .error e => (.error (RpcError.TransportError e), st)
  | .ok name_bytes =>
    match cfg.wire_config.serialize (TransportPackage.mk name_bytes query_bytes).toValue with
    | .error e => (.error (RpcError.TransportError e), st)
    | .ok package_bytes =>
      let r := impl.send_and_wait_for_response st package_bytes cfg.rcv_timeout
      (Except.mapError RpcError.TransportError r.1, r.2)

/-- Transport::receive_query: receive with no timeout, decode the owned
package, decode its name field at the caller-specified shape, and return the
name with the package's still-encoded query bytes. -/
def Transport.receive_query {σ : Type} (impl : InternalTransport σ)
    (cfg : TransportConfig) (nameTy : PTy) (st : σ) :
    Except RpcError ReceivedQuery × σ :=
  match impl.receive st none with
  | (.error e, st') => (.error (RpcError.TransportError e), st')
  | (.ok bytes, st') =>
    match cfg.wire_config.deserializePackage bytes with
    | .error e => (.error (RpcError.TransportError e), st')
    | .ok package =>
      match cfg.wire_config.deserialize nameTy package.name_bytes with
      | .error e => (.error (RpcError.TransportError e), st')
      | .ok name => (.ok ⟨name, package.query_bytes⟩, st')

/-- Transport::respond: forward already-encoded bytes via send. -/
def Transport.respond {σ : Type} (impl : InternalTransport σ) (st : σ)
    (bytes : List Nat) : Except RpcError Unit × σ :=
  let r := impl.send st bytes
  (Except.mapError RpcError.TransportError r.1, r.2)

/-- CannedTestingTransport state: the canned reply string (as its byte
sequence) and the number of receives still allowed. -/
structure CannedTestingTransport where
  always_respond_with : List Nat
  receive_times : Nat
deriving DecidableEq, Repr

/-- The InternalTransport implementation of CannedTestingTransport: send
always succeeds, send_and_wait_for_response unconditionally returns the
encoded canned string, and receive returns it while receive_times is
positive, then fails with a ReceiveError. -/
def CannedTestingTransport.internalTransport :
    InternalTransport CannedTestingTransport :=
  ⟨fun s _b => (.ok (), s),
   fun s _b _t => (.ok (pickleSer (.vstr s.always_respond_with)), s),
   fun s _t =>
     if 0 < s.receive_times then
       (.ok (pickleSer (.vstr s.always_respond_with)),
        ⟨s.always_respond_with, s.receive_times - 1⟩)
     else
       (.error (.ReceiveError "Run out of receive count"), s)⟩

/-- One read attempt's outcome on the underlying TCP stream: a chunk of at
most BUF_SIZE bytes was delivered, no data arrived before the deadline, or
the read failed with an I/O error (carried as its formatted message). -/
inductive ReadEvent where
  | chunk (b : List Nat)
  | pending
  | ioError (e : String)
deriving DecidableEq, Repr

/-- TcpTransport state: outcomes of the pending writes, the bytes written so
far, and the trace of read outcomes the stream will deliver.  An exhausted
trace means the stream is closed, so every further read returns zero
bytes. -/
structure TcpState where
  sendOutcomes : List (Option String)
  sent : List (List Nat)
  reads : List ReadEvent
deriving DecidableEq, Repr

/-- Size of the fixed intermediate read buffer in TcpTransport::receive. -/
def BUF_SIZE : Nat := 1024

/-- The read loop of TcpTransport::receive: each iteration reads into the
1024-byte intermediate buffer; a zero-byte read or a short read returns the
accumulated bytes, a full read accumulates and loops, an elapsed deadline
returns ReceiveTimeout with the configured duration, and an I/O failure
returns ReceiveError. -/
def TcpTransport.receiveLoop (timeout : Option Duration) :
    List ReadEvent → List Nat → Except TransportError (List Nat) × List ReadEvent
  | [], acc => (.ok acc, [])
  | .chunk b :: rest, acc =>
    if b.length = 0 then (.ok acc, rest)
    else if b.length < BUF_SIZE then (.ok (acc ++ b), rest)
    else TcpTransport.receiveLoop timeout rest (acc ++ b)
  | .pending :: rest, acc =>
    match timeout with
    | some d => (.error (.ReceiveTimeout d), rest)
    | none => TcpTransport.receiveLoop none rest acc
  | .ioError e :: rest, _acc => (.error (.ReceiveError e), rest)

/-- TcpTransport::send via write_all: the next write outcome decides success;
on success the bytes are appended to the wire. -/
def TcpTransport.sendImpl (st : TcpState) (b : List Nat) :
    Except TransportError Unit × TcpState :=
  match st.sendOutcomes with
  | [] => (.ok (), ⟨[], st.sent ++ [b], st.reads⟩)
  | none :: outs => (.ok (), ⟨outs, st.sent ++ [b], st.reads⟩)
  | some e :: outs => (.error (.SendError e), ⟨outs, st.sent, st.reads⟩)

/-- TcpTransport::receive: run the read loop on the stream's read trace with
a fresh empty accumulator. -/
def TcpTransport.receiveImpl (st : TcpState) (timeout : Option Duration) :
    Except TransportError (List Nat) × TcpState :=
  ((TcpTransport.receiveLoop timeout st.reads []).1,
   ⟨st.sendOutcomes, st.sent, (TcpTransport.receiveLoop timeout st.reads []).2⟩)

/-- The InternalTransport implementation of TcpTransport; its composite
operation is literally send followed by receive with Some timeout. -/
def TcpTransport.internalTransport : InternalTransport TcpState :=
  ⟨TcpTransport.sendImpl,
   fun st b t =>
     match TcpTransport.sendImpl st b with
     | (.ok _, st') => TcpTransport.receiveImpl st' (some t)
     | (.error e, st') => (.error e, st'),
   TcpTransport.receiveImpl⟩

/-- Spec-side definition, from the spec's words: the composite operation is
semantically equivalent to send followed by receive with Some timeout, and a
send failure surfaces as that send error. -/
def specSendThenReceive {σ : Type} (i : InternalTransport σ) (st : σ)
    (b : List Nat) (t : Duration) : Except TransportError (List Nat) × σ :=
  match i.send st b with
  | (.ok _, st') => i.receive st' (some t)
  | (.error e, st') => (.error e, st')

/-- The UTF-8 bytes of the canned test string used by the crate's tests. -/
def fooBytes : List Nat := [70, 111, 111]

/-- Modelled from the spec: the test sentinel RPC name
(crate::tests::HelloWorldRpcName::HelloWorld, not under src/), an
enumerated unit-variant tag. -/
def HelloWorldRpcName.HelloWorld : PValue := .vtag 0

/-! Helper lemmas about the codec model. -/

theorem take_append_self (b rest : List Nat) : (b ++ rest).take b.length = b := by
  induction b with
  | nil => simp
  | cons x xs ih => simp [ih]

theorem drop_append_self (b rest : List Nat) : (b ++ rest).drop b.length = rest := by
  induction b with
  | nil => simp
  | cons x xs ih => simp [ih]

theorem readLen_encoded (b rest : List Nat) :
    readLen (b.length :: (b ++ rest)) = some (b, rest) := by
  simp [readLen, take_append_self, drop_append_self]

theorem parseValue_ser (v : PValue) (rest : List Nat) :
    parseValue (pickleSer v ++ rest) = some (v, rest) := by
  cases v with
  | vstr s => simp [pickleSer, parseValue, readLen_encoded]
  | vbytes b => simp [pickleSer, parseValue, readLen_encoded]
  | vtag n => simp [pickleSer, parseValue]
  | vpackage nb qb =>
    simp [pickleSer, parseValue, List.append_assoc, List.cons_append, readLen_encoded]

theorem pickleParse_ser (v : PValue) : pickleParse (pickleSer v) = some v := by
  have h := parseValue_ser v []
  rw [List.append_nil] at h
  simp [pickleParse, h]

theorem serialize_ok (c : TransportWireConfig) (v : PValue) :
    c.serialize v = .ok (pickleSer v) := by
  cases c; rfl

theorem deserialize_ser (c : TransportWireConfig) (v : PValue) :
    c.deserialize (tyOf v) (pickleSer v) = .ok v := by
  cases c; simp [TransportWireConfig.deserialize, pickleParse_ser]

/-- Claim C1: serializing a name, packaging the resulting name bytes with raw
query bytes, serializing that package, deserializing the result as an owned
package, and deserializing its name field yields the original name and a
query byte buffer byte-equal to the original. -/
theorem C1_envelope_round_trip (c : TransportWireConfig) (n : PValue)
    (q nb pb : List Nat)
    (h1 : c.serialize n = .ok nb)
    (h2 : c.serialize (TransportPackage.mk nb q).toValue = .ok pb) :
    c.deserializePackage pb = .ok ⟨nb, q⟩ ∧ c.deserialize (tyOf n) nb = .ok n := by
  have e1 : nb = pickleSer n := by
    have h := serialize_ok c n
    rw [h1] at h
    injection h with h
  have e2 : pb = pickleSer (.vpackage nb q) := by
    have h := serialize_ok c (TransportPackage.mk nb q).toValue
    rw [h2] at h
    injection h with h
  constructor
  · rw [e2]
    have h := deserialize_ser c (.vpackage nb q)
    simp only [tyOf] at h
    simp [TransportWireConfig.deserializePackage, h]
  · rw [e1]
    exact deserialize_ser c n

/-- Witness for C1 at the sentinel name and the canned query bytes. -/
theorem C1_witness :
    (TransportWireConfig.default.deserializePackage
        (pickleSer (TransportPackage.mk
          (pickleSer HelloWorldRpcName.HelloWorld) fooBytes).toValue) =
      .ok ⟨pickleSer HelloWorldRpcName.HelloWorld, fooBytes⟩) ∧
    TransportWireConfig.default.deserialize (tyOf HelloWorldRpcName.HelloWorld)
        (pickleSer HelloWorldRpcName.HelloWorld) =
      .ok HelloWorldRpcName.HelloWorld :=
  C1_envelope_round_trip TransportWireConfig.default HelloWorldRpcName.HelloWorld
    fooBytes (pickleSer HelloWorldRpcName.HelloWorld)
    (pickleSer (TransportPackage.mk
      (pickleSer HelloWorldRpcName.HelloWorld) fooBytes).toValue) rfl rfl

/-- Claim C8: for every supported value and every supported wire
configuration, deserializing the bytes produced by serialize succeeds and
yields the original value. -/
theorem C8_codec_round_trip (c : TransportWireConfig) (v : PValue) :
    ∃ bytes, c.serialize v = .ok bytes ∧ c.deserialize (tyOf v) bytes = .ok v :=
  ⟨pickleSer v, serialize_ok c v, deserialize_ser c v⟩

/-- Claim C9: serialization under a fixed configuration is deterministic:
two calls on equal configurations and equal values produce identical
results, and equal successful results carry byte-identical buffers. -/
theorem C9_serialize_deterministic (c c' : TransportWireConfig) (v v' : PValue)
    (hc : c = c') (hv : v = v') :
    c.serialize v = c'.serialize v' ∧
    ∀ b b', c.serialize v = .ok b → c'.serialize v' = .ok b' → b = b' := by
  subst hc
  subst hv
  refine ⟨rfl, ?_⟩
  intro b b' h h'
  rw [h] at h'
  injection h'

/-- Witness for C9 at a concrete configuration and value. -/
theorem C9_witness :
    TransportWireConfig.default.serialize (.vstr fooBytes) =
      TransportWireConfig.default.serialize (.vstr fooBytes) ∧
    ∀ b b', TransportWireConfig.default.serialize (.vstr fooBytes) = .ok b →
      TransportWireConfig.default.serialize (.vstr fooBytes) = .ok b' → b = b' :=
  C9_serialize_deterministic TransportWireConfig.default TransportWireConfig.default
    (.vstr fooBytes) (.vstr fooBytes) rfl rfl

/-- Claim C10: the default TransportConfig carries a receive timeout of
exactly 3 seconds and selects the Pickle strategy with the default
serde_pickle options. -/
theorem C10_defaults :
    TransportConfig.default.rcv_timeout = Duration.from_secs 3 ∧
    TransportConfig.default.rcv_timeout.nanos = 3000000000 ∧
    TransportConfig.default.wire_config =
      TransportWireConfig.Pickle DeOptions.new SerOptions.new :=
  ⟨rfl, rfl, rfl⟩

theorem receiveLoop_full_chunks (t : Option Duration) (full : List (List Nat))
    (tail : List ReadEvent) (acc : List Nat)
    (h : ∀ b ∈ full, b.length = BUF_SIZE) :
    TcpTransport.receiveLoop t (full.map ReadEvent.chunk ++ tail) acc =
      TcpTransport.receiveLoop t tail (acc ++ full.flatten) := by
  induction full generalizing acc with
  | nil => simp
  | cons b bs ih =>
    have hb : b.length = BUF_SIZE := h b (List.mem_cons_self b bs)
    have hb0 : ¬b.length = 0 := by rw [hb]; decide
    have hblt : ¬b.length < BUF_SIZE := by rw [hb]; simp
    simp only [List.map_cons, List.cons_append, List.append_eq,
      TcpTransport.receiveLoop, hb0, hblt, if_false]
    rw [ih (acc ++ b) (fun x hx => h x (List.mem_cons_of_mem b hx))]
    simp [List.append_assoc]

/-- Claim C2: TcpTransport::receive reads into a fixed 1024-byte buffer in a
loop, appends each chunk to a growable accumulator, and returns the
accumulated bytes exactly when a read delivers strictly fewer than 1024
bytes or zero bytes; a zero-byte read on the very first iteration returns an
empty buffer as a success. -/
theorem C2_receive_reassembly (t : Option Duration) (full : List (List Nat))
    (lastChunk : List Nat) (evs : List ReadEvent) (so : List (Option String))
    (snt : List (List Nat))
    (hfull : ∀ b ∈ full, b.length = BUF_SIZE)
    (hlast : lastChunk.length < BUF_SIZE) :
    BUF_SIZE = 1024 ∧
    TcpTransport.receiveImpl
        ⟨so, snt, full.map ReadEvent.chunk ++ ReadEvent.chunk lastChunk :: evs⟩ t =
      (.ok (full.flatten ++ lastChunk), ⟨so, snt, evs⟩) ∧
    TcpTransport.receiveImpl ⟨so, snt, ReadEvent.chunk [] :: evs⟩ t =
      (.ok [], ⟨so, snt, evs⟩) := by
  refine ⟨rfl, ?_, ?_⟩
  · show TcpTransport.receiveImpl ⟨so, snt, _⟩ t = _
    unfold TcpTransport.receiveImpl
    rw [show (⟨so, snt, full.map ReadEvent.chunk ++ ReadEvent.chunk lastChunk :: evs⟩ :
        TcpState).reads = full.map ReadEvent.chunk ++ ReadEvent.chunk lastChunk :: evs
      from rfl]
    rw [receiveLoop_full_chunks t full _ [] hfull]
    by_cases h0 : lastChunk.length = 0
    · have he : lastChunk = [] := List.eq_nil_of_length_eq_zero h0
      subst he
      simp [TcpTransport.receiveLoop]
    · simp [TcpTransport.receiveLoop, h0, hlast]
  · have h0 : (0 : Nat) < BUF_SIZE := by decide
    simp [TcpTransport.receiveImpl, TcpTransport.receiveLoop]

/-- Witness for C2 with one full 1024-byte read followed by a short read,
and separately a zero-byte first read. -/
theorem C2_witness :
    BUF_SIZE = 1024 ∧
    TcpTransport.receiveImpl
        ⟨[], [], [List.replicate 1024 7].map ReadEvent.chunk ++
          ReadEvent.chunk [5, 6] :: []⟩ none =
      (.ok ([List.replicate 1024 7].flatten ++ [5, 6]), ⟨[], [], []⟩) ∧
    TcpTransport.receiveImpl ⟨[], [], ReadEvent.chunk [] :: []⟩ none =
      (.ok [], ⟨[], [], []⟩) :=
  C2_receive_reassembly none [List.replicate 1024 7] [5, 6] [] [] []
    (by intro b hb; simp only [List.mem_singleton] at hb; subst hb;
        simp only [List.length_replicate, BUF_SIZE])
    (by decide)

/-- Claim C3: if the timeout elapses during any single read iteration,
TcpTransport::receive returns ReceiveTimeout carrying exactly the configured
duration, and the bytes accumulated so far in that call are discarded: the
error carries no bytes and the successor state retains only the unread part
of the stream. -/
theorem C3_timeout_discards (d : Duration) (full : List (List Nat))
    (evs : List ReadEvent) (so : List (Option String)) (snt : List (List Nat))
    (hfull : ∀ b ∈ full, b.length = BUF_SIZE) :
    TcpTransport.receiveImpl
        ⟨so, snt, full.map ReadEvent.chunk ++ ReadEvent.pending :: evs⟩ (some d) =
      (.error (.ReceiveTimeout d), ⟨so, snt, evs⟩) := by
  unfold TcpTransport.receiveImpl
  rw [show (⟨so, snt, full.map ReadEvent.chunk ++ ReadEvent.pending :: evs⟩ :
      TcpState).reads = full.map ReadEvent.chunk ++ ReadEvent.pending :: evs
    from rfl]
  rw [receiveLoop_full_chunks (some d) full _ [] hfull]
  simp [TcpTransport.receiveLoop]

/-- Witness for C3 after one full read, with duration 3 seconds. -/
theorem C3_witness :
    TcpTransport.receiveImpl
        ⟨[], [], [List.replicate 1024 7].map ReadEvent.chunk ++
          ReadEvent.pending :: []⟩ (some (Duration.from_secs 3)) =
      (.error (.ReceiveTimeout (Duration.from_secs 3)), ⟨[], [], []⟩) :=
  C3_timeout_discards (Duration.from_secs 3) [List.replicate 1024 7] [] [] []
    (by intro b hb; simp only [List.mem_singleton] at hb; subst hb;
        simp only [List.length_replicate, BUF_SIZE])

/-- Claim C4 counterexample: on the CannedTestingTransport with
receive_times = 0, send_and_wait_for_response succeeds with the canned
payload while send followed by receive fails, so the composite is not
equivalent to the composition as the claim states for every
implementation. -/
theorem C4_counterexample :
    Except.isOk (CannedTestingTransport.internalTransport.send_and_wait_for_response
        ⟨fooBytes, 0⟩ [] (Duration.from_secs 3)).1 = true ∧
    Except.isOk (specSendThenReceive CannedTestingTransport.internalTransport
        ⟨fooBytes, 0⟩ [] (Duration.from_secs 3)).1 = false :=
  ⟨rfl, rfl⟩

/-- Claim C4 (amended): TcpTransport's send_and_wait_for_response is exactly
send followed by receive with Some timeout, so a send failure surfaces as
that send error and never as a receive error; CannedTestingTransport's
composite agrees with the composition in return value whenever
receive_times is positive, but not at receive_times = 0. -/
theorem C4_amended :
    (∀ (st : TcpState) (b : List Nat) (t : Duration),
        TcpTransport.internalTransport.send_and_wait_for_response st b t =
          specSendThenReceive TcpTransport.internalTransport st b t) ∧
    (∀ (s : CannedTestingTransport) (b : List Nat) (t : Duration),
        0 < s.receive_times →
        (CannedTestingTransport.internalTransport.send_and_wait_for_response s b t).1 =
          (specSendThenReceive CannedTestingTransport.internalTransport s b t).1) := by
  constructor
  · intro st b t
    rcases hs : TcpTransport.sendImpl st b with ⟨r, st'⟩
    cases r <;>
      simp [TcpTransport.internalTransport, specSendThenReceive, hs]
  · intro s b t h
    simp [CannedTestingTransport.internalTransport, specSendThenReceive, h]

/-- Witness for C4 (amended) on the canned transport with one receive
allowed. -/
theorem C4_witness :
    (CannedTestingTransport.internalTransport.send_and_wait_for_response
        ⟨fooBytes, 1⟩ [] (Duration.from_secs 3)).1 =
      (specSendThenReceive CannedTestingTransport.internalTransport
        ⟨fooBytes, 1⟩ [] (Duration.from_secs 3)).1 :=
  C4_amended.2 ⟨fooBytes, 1⟩ [] (Duration.from_secs 3) (by decide)

/-- Claim C5: send_query serializes the name with the configured codec,
builds a package from the name bytes and caller query bytes, serializes the
package as one unit, hands the bytes to send_and_wait_for_response with the
configured receive timeout, and returns the raw response unchanged (errors
are only wrapped into the RPC error). -/
theorem C5_send_query {σ : Type} (impl : InternalTransport σ)
    (cfg : TransportConfig) (st : σ) (q : List Nat) (n : PValue)
    (nb pb : List Nat)
    (h1 : cfg.wire_config.serialize n = .ok nb)
    (h2 : cfg.wire_config.serialize (TransportPackage.mk nb q).toValue = .ok pb) :
    Transport.send_query impl cfg st q n =
      (Except.mapError RpcError.TransportError
          (impl.send_and_wait_for_response st pb cfg.rcv_timeout).1,
        (impl.send_and_wait_for_response st pb cfg.rcv_timeout).2) := by
  simp [Transport.send_query, h1, h2]

/-- Witness for C5 on the canned transport with the sentinel name. -/
theorem C5_witness :
    Transport.send_query CannedTestingTransport.internalTransport
        TransportConfig.default ⟨fooBytes, 1⟩ fooBytes
        HelloWorldRpcName.HelloWorld =
      (Except.mapError RpcError.TransportError
          (CannedTestingTransport.internalTransport.send_and_wait_for_response
            ⟨fooBytes, 1⟩
            (pickleSer (TransportPackage.mk
              (pickleSer HelloWorldRpcName.HelloWorld) fooBytes).toValue)
            TransportConfig.default.rcv_timeout).1,
        (CannedTestingTransport.internalTransport.send_and_wait_for_response
            ⟨fooBytes, 1⟩
            (pickleSer (TransportPackage.mk
              (pickleSer HelloWorldRpcName.HelloWorld) fooBytes).toValue)
            TransportConfig.default.rcv_timeout).2) :=
  C5_send_query CannedTestingTransport.internalTransport TransportConfig.default
    ⟨fooBytes, 1⟩ fooBytes HelloWorldRpcName.HelloWorld
    (pickleSer HelloWorldRpcName.HelloWorld)
    (pickleSer (TransportPackage.mk
      (pickleSer HelloWorldRpcName.HelloWorld) fooBytes).toValue) rfl rfl

/-- Claim C6: receive_query calls receive with no timeout; on success it
decodes the owned package, decodes the name field at the caller-specified
shape, and returns the name with the package's unmodified query bytes; a
receive error is wrapped into the RPC error and returned directly, with no
internal retry. -/
theorem C6_receive_query {σ : Type} (impl : InternalTransport σ)
    (cfg : TransportConfig) (nameTy : PTy) (st st' : σ) :
    (∀ e, impl.receive st none = (.error e, st') →
        Transport.receive_query impl cfg nameTy st =
          (.error (RpcError.TransportError e), st')) ∧
    (∀ bytes pkg nm, impl.receive st none = (.ok bytes, st') →
        cfg.wire_config.deserializePackage bytes = .ok pkg →
        cfg.wire_config.deserialize nameTy pkg.name_bytes = .ok nm →
        Transport.receive_query impl cfg nameTy st =
          (.ok ⟨nm, pkg.query_bytes⟩, st')) := by
  constructor
  · intro e h
    simp [Transport.receive_query, h]
  · intro bytes pkg nm h hp hn
    simp [Transport.receive_query, h, hp, hn]

/-- Witness for C6: the success path on a TcpTransport delivering one
encoded package, and the error path on an exhausted canned transport. -/
theorem C6_witness :
    Transport.receive_query TcpTransport.internalTransport
        TransportConfig.default PTy.ttag
        ⟨[], [], [ReadEvent.chunk (pickleSer (TransportPackage.mk
          (pickleSer HelloWorldRpcName.HelloWorld)
          (pickleSer (.vstr fooBytes))).toValue)]⟩ =
      (.ok ⟨HelloWorldRpcName.HelloWorld, pickleSer (.vstr fooBytes)⟩,
        ⟨[], [], []⟩) ∧
    Transport.receive_query CannedTestingTransport.internalTransport
        TransportConfig.default PTy.ttag ⟨fooBytes, 0⟩ =
      (.error (RpcError.TransportError (.ReceiveError "Run out of receive count")),
        ⟨fooBytes, 0⟩) :=
  ⟨(C6_receive_query TcpTransport.internalTransport TransportConfig.default
      PTy.ttag _ ⟨[], [], []⟩).2
      (pickleSer (TransportPackage.mk (pickleSer HelloWorldRpcName.HelloWorld)
        (pickleSer (.vstr fooBytes))).toValue)
      ⟨pickleSer HelloWorldRpcName.HelloWorld, pickleSer (.vstr fooBytes)⟩
      HelloWorldRpcName.HelloWorld rfl rfl rfl,
   (C6_receive_query CannedTestingTransport.internalTransport
      TransportConfig.default PTy.ttag _ ⟨fooBytes, 0⟩).1
      (.ReceiveError "Run out of receive count") rfl⟩

/-- Claim C7 counterexample: over a CannedTestingTransport with canned reply
string Foo and one receive allowed, the first receive_query does not return
a ReceivedQuery at all. -/
theorem C7_counterexample :
    Except.isOk (Transport.receive_query CannedTestingTransport.internalTransport
        TransportConfig.default PTy.ttag ⟨fooBytes, 1⟩).1 = false :=
  rfl

/-- Claim C7 (amended): over a CannedTestingTransport with canned reply Foo
and receive_times = 1, the first receive_query fails with a wrapped
DeserialiseError, because the canned payload is a bare encoded string and
not an encoded package; the second call, from the resulting state, fails
with a wrapped ReceiveError. -/
theorem C7_amended :
    Transport.receive_query CannedTestingTransport.internalTransport
        TransportConfig.default PTy.ttag ⟨fooBytes, 1⟩ =
      (.error (RpcError.TransportError (.DeserialiseError "type mismatch")),
        ⟨fooBytes, 0⟩) ∧
    (Transport.receive_query CannedTestingTransport.internalTransport
        TransportConfig.default PTy.ttag ⟨fooBytes, 0⟩).1 =
      .error (RpcError.TransportError (.ReceiveError "Run out of receive count")) :=
  ⟨rfl, rfl⟩

end Pirates
